import Mathlib

/-!
Shallow embedding of the serverscom api-gateway-controller reconciliation core.

The Go sources embedded here are:
  internal/service/lb   (EnsureLB, DeleteLB, translateGatewayToLBInput)
  internal/service/tls  (EnsureTLS core: findCertificate, ensureCertificateForSecret)
  internal/gateway/controller (helpers, buildGatewayInfo, buildTLSInfo,
                               getNodesIpList, gatewayReferencesSecret, Reconcile)

Go machine integers (int, int32) are embedded as Int: every value involved
(ports, node ports, weights) is small and no arithmetic that could overflow
occurs in the embedded code.  Go maps are embedded as insertion-ordered
association lists; Go `nil` pointers and optional fields as Option; fallible
Go functions returning (T, error) as Except.  External provider calls are
embedded by passing the provider's response in as a parameter and recording
the issued calls in a trace list.
-/

/-- Err models a Go error value from the provider or from the controller
itself.  `notFound` is the provider's distinguished NotFoundError. -/
inductive Err where
  | notFound
  | provider (msg : String)
  | msg (s : String)
deriving DecidableEq, Repr

/-- ignoreNotFound embeds utils.IgnoreNotFound (internal/utils): a NotFoundError
becomes a nil error (`none`), any other error is returned unchanged. -/
def ignoreNotFound : Err → Option Err
  | Err.notFound => none
  | e => some e

/-- strToLower embeds strings.ToLower for the ASCII status strings involved
(character-wise lower-casing over the string's characters). -/
def strToLower (s : String) : String :=
  String.mk (s.data.map Char.toLower)

/-- equalFold embeds strings.EqualFold as used on load-balancer statuses;
for the ASCII status strings involved, Go case folding is lower-casing. -/
def equalFold (a b : String) : Bool :=
  strToLower a == strToLower b

/-- LB_ACTIVE_STATUS from internal/config: the provider status meaning the
load balancer is programmed. -/
def LB_ACTIVE_STATUS : String := "active"

/-- GW_LABEL_ID from internal/config: the label key correlating a provider
load balancer with its owning Gateway UID. -/
def GW_LABEL_ID : String := "k8s.srvrscloud.com/api-gateway-id"

/-- SECRET_LABEL_ID from internal/config: the label key correlating a provider
certificate with its originating Secret UID. -/
def SECRET_LABEL_ID : String := "k8s.srvrscloud.com/api-secret-id"

/-- TLS_EXTERNAL_ID_KEY from internal/config: the listener TLS option key that
selects an external certificate id directly. -/
def TLS_EXTERNAL_ID_KEY : String := "sc-certmgr-cert-id"

/-- assocLookup models reading a Go map entry (maps are embedded as
insertion-ordered association lists). -/
def assocLookup {α : Type} (m : List (String × α)) (k : String) : Option α :=
  (m.find? (fun p => p.1 == k)).map (fun p => p.2)

/-- assocSet models writing a Go map entry: replace in place when the key is
present, append otherwise. -/
def assocSet {α : Type} : List (String × α) → String → α → List (String × α)
  | [], k, v => [(k, v)]
  | p :: rest, k, v =>
    if p.1 == k then (k, v) :: rest else p :: assocSet rest k v

/-! ## Data model (internal/types/gateway.go) -/

/-- PathInfo embeds types.PathInfo.  The Go struct stores a pointer to the
whole backing corev1.Service; only its Name is ever read downstream
(translateGatewayToLBInput uses p.Service.Name), so the embedding keeps
the name. -/
structure PathInfo where
  path : String
  serviceName : String
  nodePort : Int
  nodeIps : List String
deriving DecidableEq, Repr

/-- VHostInfo embeds types.VHostInfo. -/
structure VHostInfo where
  host : String
  ssl : Bool
  ports : List Int
  paths : List PathInfo
deriving DecidableEq, Repr

/-- GatewayInfo embeds types.GatewayInfo; the VHosts map is an
insertion-ordered association list. -/
structure GatewayInfo where
  uid : String
  name : String
  ns : String
  vhosts : List (String × VHostInfo)
deriving DecidableEq, Repr

/-! ## LB synchronizer (internal/service/lb) -/

/-- LoadBalancer embeds the provider list item serverscom.LoadBalancer
(the fields the controller reads: ID and Status). -/
structure LoadBalancer where
  id : String
  status : String
deriving DecidableEq, Repr

/-- L7LoadBalancer embeds serverscom.L7LoadBalancer (the fields the
controller reads: ID, Status, ExternalAddresses). -/
structure L7LoadBalancer where
  id : String
  status : String
  externalAddresses : List String
deriving DecidableEq, Repr

/-- L7UpstreamInput embeds serverscom.L7UpstreamInput. -/
structure L7UpstreamInput where
  ip : String
  port : Int
  weight : Int
deriving DecidableEq, Repr

/-- L7UpstreamZoneInput embeds serverscom.L7UpstreamZoneInput. -/
structure L7UpstreamZoneInput where
  id : String
  upstreams : List L7UpstreamInput
deriving DecidableEq, Repr

/-- L7LocationZoneInput embeds serverscom.L7LocationZoneInput. -/
structure L7LocationZoneInput where
  location : String
  upstreamId : String
deriving DecidableEq, Repr

/-- L7VHostZoneInput embeds serverscom.L7VHostZoneInput. -/
structure L7VHostZoneInput where
  id : String
  domains : List String
  sslCertId : String
  ssl : Bool
  ports : List Int
  locationZones : List L7LocationZoneInput
deriving DecidableEq, Repr

/-- L7LoadBalancerCreateInput embeds serverscom.L7LoadBalancerCreateInput
(the fields translateGatewayToLBInput sets). -/
structure L7LoadBalancerCreateInput where
  name : String
  locationId : Int
  upstreamZones : List L7UpstreamZoneInput
  vhostZones : List L7VHostZoneInput
  labels : List (String × String)
deriving DecidableEq, Repr

/-- L7LoadBalancerUpdateInput embeds serverscom.L7LoadBalancerUpdateInput
(the fields EnsureLB sets; StoreLogs/StoreLogsRegionID/Geoip/ClusterID are
zero values copied from the create input and ClusterID nil makes
SharedCluster true). -/
structure L7LoadBalancerUpdateInput where
  name : String
  upstreamZones : List L7UpstreamZoneInput
  vhostZones : List L7VHostZoneInput
  sharedCluster : Option Bool
deriving DecidableEq, Repr

/-- getLoadBalancerName embeds lb/helpers.go getLoadBalancerName: prepend "a",
strip dashes, truncate to 32 bytes, prepend "gw-".  Gateway UIDs are ASCII so
byte truncation coincides with character truncation. -/
def getLoadBalancerName (uid : String) : String :=
  let ret := ("a" ++ uid).data
  let ret := ret.filter (fun c => c != '-')
  let ret := if ret.length > 32 then ret.take 32 else ret
  String.mk ("gw-".data ++ ret)

/-- upstreamZoneId is the deterministic composite id fmt.Sprintf
("upstream-zone-%s-%d", p.Service.Name, p.NodePort). -/
def upstreamZoneId (serviceName : String) (nodePort : Int) : String :=
  "upstream-zone-" ++ serviceName ++ "-" ++ toString nodePort

/-- SC_LOCATION_ID_DEFAULT: translateGatewayToLBInput reads the
SC_LOCATION_ID environment variable with default "1" and falls back to 1
when it does not parse; the environment read is embedded as its default. -/
def SC_LOCATION_ID_DEFAULT : Int := 1

/-- upstreamsOfPath builds the per-node upstream members for a path, one
entry per node IP, each with weight 1, targeting the node port. -/
def upstreamsOfPath (p : PathInfo) : List L7UpstreamInput :=
  p.nodeIps.map (fun ip => { ip := ip, port := p.nodePort, weight := 1 })

/-- translatePaths embeds the inner paths loop of translateGatewayToLBInput:
it accumulates the location zones (in path order) and inserts an upstream
zone into the upstream map at first sight of each composite id. -/
def translatePaths :
    List PathInfo → List (String × L7UpstreamZoneInput) →
    List L7LocationZoneInput × List (String × L7UpstreamZoneInput)
  | [], upstreamMap => ([], upstreamMap)
  | p :: rest, upstreamMap =>
    let uid := upstreamZoneId p.serviceName p.nodePort
    let upstreamMap' :=
      match assocLookup upstreamMap uid with
      | some _ => upstreamMap
      | none => upstreamMap ++ [(uid, { id := uid, upstreams := upstreamsOfPath p })]
    let (locs, finalMap) := translatePaths rest upstreamMap'
    ({ location := p.path, upstreamId := uid } :: locs, finalMap)

/-- translateVHosts embeds the vhost loop of translateGatewayToLBInput.
A vhost with empty ports or empty location zones is skipped (its upstream
zones, already inserted by the paths loop, are kept — as in the source). -/
def translateVHosts (tlsInfo : List (String × String)) :
    List (String × VHostInfo) → List (String × L7UpstreamZoneInput) →
    List L7VHostZoneInput × List (String × L7UpstreamZoneInput)
  | [], upstreamMap => ([], upstreamMap)
  | (host, vh) :: rest, upstreamMap =>
    let sslEnabled := vh.ssl
    let sslId :=
      if sslEnabled then
        match assocLookup tlsInfo host with
        | some id => id
        | none => ""
      else ""
    let (locationZones, upstreamMap') := translatePaths vh.paths upstreamMap
    let (zones, finalMap) := translateVHosts tlsInfo rest upstreamMap'
    if vh.ports.length == 0 || locationZones.length == 0 then
      (zones, finalMap)
    else
      ({ id := "vhost-zone-" ++ host
         domains := [host]
         sslCertId := sslId
         ssl := sslEnabled
         ports := vh.ports
         locationZones := locationZones } :: zones, finalMap)

/-- translateGatewayToLBInput embeds lb/helpers.go translateGatewayToLBInput:
builds the provider create input from a GatewayInfo plus the host→certificate
map; a topology yielding zero vhost zones or zero upstream zones is rejected. -/
def translateGatewayToLBInput (gwInfo : GatewayInfo)
    (tlsInfo : List (String × String)) : Except Err L7LoadBalancerCreateInput :=
  let (vhostZones, upstreamMap) := translateVHosts tlsInfo gwInfo.vhosts []
  let upstreamZones := upstreamMap.map (fun p => p.2)
  if vhostZones.length == 0 || upstreamZones.length == 0 then
    Except.error (Err.msg "vhost or upstream can't be empty, can't continue")
  else
    Except.ok
      { name := getLoadBalancerName gwInfo.uid
        locationId := SC_LOCATION_ID_DEFAULT
        upstreamZones := upstreamZones
        vhostZones := vhostZones
        labels := [(GW_LABEL_ID, gwInfo.uid)] }

/-- toUpdateInput embeds the construction of L7LoadBalancerUpdateInput inside
EnsureLB: the zones are copied from the create input and, since the create
input's ClusterID is always nil, SharedCluster is set to true. -/
def toUpdateInput (input : L7LoadBalancerCreateInput) : L7LoadBalancerUpdateInput :=
  { name := input.name
    upstreamZones := input.upstreamZones
    vhostZones := input.vhostZones
    sharedCluster := some true }

/-- LBCall records a provider mutation issued by the LB synchronizer. -/
inductive LBCall where
  | create (input : L7LoadBalancerCreateInput)
  | update (id : String) (input : L7LoadBalancerUpdateInput)
deriving DecidableEq, Repr

/-- ensureLB embeds lb EnsureLB.  The provider's list response is the
parameter `listRes`; `createRes`/`updateRes` give the provider's response to
a create/update call.  The first component of the result is the trace of
provider mutations issued. -/
def ensureLB (gwInfo : GatewayInfo) (hostCertMap : List (String × String))
    (listRes : Except Err (List LoadBalancer))
    (createRes : L7LoadBalancerCreateInput → Except Err L7LoadBalancer)
    (updateRes : String → L7LoadBalancerUpdateInput → Except Err L7LoadBalancer) :
    List LBCall × Except Err L7LoadBalancer :=
  match listRes with
  | Except.error e => ([], Except.error e)
  | Except.ok lbs =>
    match lbs with
    | [] =>
      match translateGatewayToLBInput gwInfo hostCertMap with
      | Except.error e => ([], Except.error e)
      | Except.ok input => ([LBCall.create input], createRes input)
    | lb :: rest =>
      if rest.length > 0 then
        ([], Except.error (Err.msg "found more than one lb with same label"))
      else if !(equalFold lb.status LB_ACTIVE_STATUS) then
        ([], Except.ok { id := "", status := lb.status, externalAddresses := [] })
      else
        match translateGatewayToLBInput gwInfo hostCertMap with
        | Except.error e => ([], Except.error e)
        | Except.ok input =>
          ([LBCall.update lb.id (toUpdateInput input)],
           updateRes lb.id (toUpdateInput input))

/-- DeleteOutcome classifies a DeleteLB run: a nil-error return without any
delete call, an error return without any delete call, a delete call issued on
a specific id (returning the provider's response), or a Go runtime panic. -/
inductive DeleteOutcome where
  | noCallOk
  | noCallErr (e : Err)
  | called (id : String) (res : Option Err)
  | crash
deriving DecidableEq, Repr

/-- deleteLB embeds lb DeleteLB.  A list error is filtered through
IgnoreNotFound; more than one load balancer is a fatal error; otherwise the
source evaluates lbs[0].ID — which on an empty slice is a Go index-out-of-range
panic, embedded as `crash`. -/
def deleteLB (listRes : Except Err (List LoadBalancer))
    (delRes : String → Option Err) : DeleteOutcome :=
  match listRes with
  | Except.error e =>
    match ignoreNotFound e with
    | none => DeleteOutcome.noCallOk
    | some e2 => DeleteOutcome.noCallErr e2
  | Except.ok lbs =>
    if lbs.length > 1 then
      DeleteOutcome.noCallErr (Err.msg "found more than one lb with same label")
    else
      match lbs with
      | [] => DeleteOutcome.crash
      | lb :: _ => DeleteOutcome.called lb.id (delRes lb.id)

/-! ## TLS synchronizer (internal/service/tls/manager.go) -/

/-- SSLCertificate embeds serverscom.SSLCertificate (the fields the manager
reads: ID, Sha1Fingerprint, Labels). -/
structure SSLCertificate where
  id : String
  name : String
  sha1Fingerprint : String
  labels : List (String × String)
deriving DecidableEq, Repr

/-- SSLCertificateCreateCustomInput embeds the provider create input built by
createCertificateForSecret. -/
structure SSLCertificateCreateCustomInput where
  name : String
  publicKey : String
  privateKey : String
  labels : List (String × String)
  chainKey : String
deriving DecidableEq, Repr

/-- SSLCertificateUpdateCustomInput embeds the provider update input built by
updateCertificateForSecret. -/
structure SSLCertificateUpdateCustomInput where
  publicKey : String
  privateKey : String
  chainKey : String
deriving DecidableEq, Repr

/-- certCreateInput embeds the input construction in createCertificateForSecret:
the certificate is named after and labeled with the originating secret UID. -/
def certCreateInput (secretUID cert key chain : String) :
    SSLCertificateCreateCustomInput :=
  { name := "gw-secret-" ++ secretUID
    publicKey := cert
    privateKey := key
    labels := [(SECRET_LABEL_ID, secretUID)]
    chainKey := if chain.length > 0 then chain else "" }

/-- certUpdateInput embeds the input construction in updateCertificateForSecret. -/
def certUpdateInput (cert key chain : String) : SSLCertificateUpdateCustomInput :=
  { publicKey := cert
    privateKey := key
    chainKey := if chain.length > 0 then chain else "" }

/-- TLSCall records a provider mutation issued by the TLS synchronizer. -/
inductive TLSCall where
  | create (input : SSLCertificateCreateCustomInput)
  | update (id : String) (input : SSLCertificateUpdateCustomInput)
deriving DecidableEq, Repr

/-- findCertificate embeds tls findCertificate: list the provider certificates
labeled with the secret UID (a NotFoundError on the list is swallowed), return
the first one whose fingerprint matches, otherwise the first one found
("Return first for update use" in the source), otherwise nothing. -/
def findCertificate (listRes : Except Err (List SSLCertificate))
    (fingerprint : String) : Except Err (Option SSLCertificate) :=
  match listRes with
  | Except.error e =>
    match ignoreNotFound e with
    | none => Except.ok none
    | some e2 => Except.error e2
  | Except.ok certs =>
    match certs.find? (fun c => c.sha1Fingerprint == fingerprint) with
    | some c => Except.ok (some c)
    | none =>
      match certs with
      | c :: _ => Except.ok (some c)
      | [] => Except.ok none

/-- ensureCertificateForSecret embeds tls ensureCertificateForSecret: reuse a
found certificate with matching fingerprint, update in place a found one with
a nonempty id, otherwise create a new certificate labeled with the secret UID.
The provider's list response is `listRes`; `updRes`/`crtRes` are the
provider's responses to the update/create calls; the first component of the
result is the trace of provider mutations issued. -/
def ensureCertificateForSecret (fingerprint secretUID cert key chain : String)
    (listRes : Except Err (List SSLCertificate))
    (updRes : String → SSLCertificateUpdateCustomInput → Except Err SSLCertificate)
    (crtRes : SSLCertificateCreateCustomInput → Except Err SSLCertificate) :
    List TLSCall × Except Err SSLCertificate :=
  match findCertificate listRes fingerprint with
  | Except.error e => ([], Except.error e)
  | Except.ok found =>
    match found with
    | some c =>
      if c.sha1Fingerprint == fingerprint then
        ([], Except.ok c)
      else if c.id != "" then
        ([TLSCall.update c.id (certUpdateInput cert key chain)],
         updRes c.id (certUpdateInput cert key chain))
      else
        ([TLSCall.create (certCreateInput secretUID cert key chain)],
         crtRes (certCreateInput secretUID cert key chain))
    | none =>
      ([TLSCall.create (certCreateInput secretUID cert key chain)],
       crtRes (certCreateInput secretUID cert key chain))

/-! ## Matching primitives (internal/gateway/controller/helpers.go) -/

/-- GroupName is the Gateway API group gatewayv1.GroupName. -/
def GroupName : String := "gateway.networking.k8s.io"

/-- hostMatches embeds helpers.go hostMatches: empty listener host matches
anything; exact equality matches; a listener host "*.suffix" (length > 2)
matches any route host ending in ".suffix"; anything else is a non-match.
Go slices bytes (listenerHost[1:]) and measures bytes (len); the hostnames
involved are ASCII, where byte and character indexing coincide. -/
def hostMatches (listenerHost routeHost : String) : Bool :=
  if listenerHost == "" then true
  else if listenerHost == routeHost then true
  else if "*.".data.isPrefixOf listenerHost.data && listenerHost.length > 2 then
    (listenerHost.data.drop 1).isSuffixOf routeHost.data
  else false

/-- ListenerInfo embeds types.ListenerInfo.  A nil Go selector map is the
empty list (both iterate zero pairs). -/
structure ListenerInfo where
  name : String
  hostname : String
  protocol : String
  port : Int
  allowedFrom : String
  selector : List (String × String)
deriving DecidableEq, Repr

/-- isRouteNamespaceAllowed embeds helpers.go isRouteNamespaceAllowed.
A missing key in the Go namespace-labels map reads as "", as in Go. -/
def isRouteNamespaceAllowed (listener : ListenerInfo) (listenerNS routeNS : String)
    (nsLabels : List (String × String)) : Bool :=
  match listener.allowedFrom with
  | "All" => true
  | "Same" => listenerNS == routeNS
  | "Selector" =>
    listener.selector.all (fun kv =>
      (match assocLookup nsLabels kv.1 with
       | some v => v
       | none => "") == kv.2)
  | _ => listenerNS == routeNS

/-- ParentReference embeds gatewayv1.ParentReference (the fields the
controller reads). -/
structure ParentReference where
  kind : Option String
  group : Option String
  name : String
  ns : Option String
  sectionName : Option String
deriving DecidableEq, Repr

/-- BackendRef embeds the backend object reference of a gatewayv1
HTTPBackendRef (the fields the controller reads). -/
structure BackendRef where
  group : Option String
  name : String
  ns : Option String
  port : Option Int
deriving DecidableEq, Repr

/-- HTTPPathMatch embeds gatewayv1.HTTPPathMatch (Type and Value, both
optional in Go). -/
structure HTTPPathMatch where
  ty : Option String
  value : Option String
deriving DecidableEq, Repr

/-- HTTPRouteMatch embeds gatewayv1.HTTPRouteMatch (the Path field). -/
structure HTTPRouteMatch where
  path : Option HTTPPathMatch
deriving DecidableEq, Repr

/-- HTTPRouteRule embeds gatewayv1.HTTPRouteRule (the fields the controller
reads; Filters are only logged and are omitted).  The Go field Matches is
named matchList because `matches` is reserved in Lean. -/
structure HTTPRouteRule where
  matchList : List HTTPRouteMatch
  backendRefs : List BackendRef
deriving DecidableEq, Repr

/-- HTTPRoute embeds a gatewayv1.HTTPRoute (metadata name/namespace plus the
spec fields the controller reads). -/
structure HTTPRoute where
  name : String
  ns : String
  hostnames : List String
  parentRefs : List ParentReference
  rules : List HTTPRouteRule
deriving DecidableEq, Repr

/-- SecretObjectReference embeds gatewayv1.SecretObjectReference. -/
structure SecretObjectReference where
  kind : Option String
  group : Option String
  name : String
  ns : Option String
deriving DecidableEq, Repr

/-- GatewayTLSConfig embeds gatewayv1.GatewayTLSConfig (Mode, Options,
CertificateRefs). -/
structure GatewayTLSConfig where
  mode : Option String
  options : List (String × String)
  certificateRefs : List SecretObjectReference
deriving DecidableEq, Repr

/-- RouteNamespaces embeds gatewayv1.RouteNamespaces: the From policy and the
selector's MatchLabels.  `selector = some m` corresponds to Go
ns.Selector != nil && ns.Selector.MatchLabels != nil. -/
structure RouteNamespaces where
  fromNs : Option String
  selector : Option (List (String × String))
deriving DecidableEq, Repr

/-- Listener embeds a gatewayv1.Listener.  `allowedNamespaces = some r`
corresponds to Go l.AllowedRoutes != nil && l.AllowedRoutes.Namespaces != nil. -/
structure Listener where
  name : String
  hostname : Option String
  protocol : String
  port : Int
  allowedNamespaces : Option RouteNamespaces
  tls : Option GatewayTLSConfig
deriving DecidableEq, Repr

/-- Gateway embeds a gatewayv1.Gateway (metadata plus listeners). -/
structure Gateway where
  name : String
  ns : String
  uid : String
  listeners : List Listener
deriving DecidableEq, Repr

/-- isRouteAttachedToGateway embeds helpers.go isRouteAttachedToGateway:
some parent reference must have kind nil-or-Gateway, group nil-or-Gateway-API,
the Gateway's name, and (defaulting to the route's own namespace) the
Gateway's namespace. -/
def isRouteAttachedToGateway (route : HTTPRoute) (gw : Gateway) : Bool :=
  route.parentRefs.any (fun parent =>
    (match parent.kind with
     | some k => k == "Gateway"
     | none => true) &&
    (match parent.group with
     | some g => g == GroupName
     | none => true) &&
    parent.name == gw.name &&
    (match parent.ns with
     | some n => n
     | none => route.ns) == gw.ns)

/-- validateHTTPSListener embeds helpers.go validateHTTPSListener: a
non-HTTPS listener passes unconditionally; an HTTPS listener needs a
non-empty hostname, a TLS block, and TLS mode exactly "Terminate". -/
def validateHTTPSListener (l : Listener) : Except Err Unit :=
  if l.protocol != "HTTPS" then Except.ok ()
  else
    match l.hostname with
    | none => Except.error (Err.msg "hostname must be specified for HTTPS protocol")
    | some h =>
      if h == "" then
        Except.error (Err.msg "hostname must be specified for HTTPS protocol")
      else
        match l.tls with
        | none => Except.error (Err.msg ("hostname=" ++ h ++ ": missing TLS config"))
        | some t =>
          match t.mode with
          | some m =>
            if m == "Terminate" then Except.ok ()
            else Except.error (Err.msg ("hostname=" ++ h ++ ": TLS mode must be 'Terminate'"))
          | none => Except.error (Err.msg ("hostname=" ++ h ++ ": TLS mode must be 'Terminate'"))

/-! ## Cluster snapshot read by the topology builder -/

/-- NodeAddress embeds corev1.NodeAddress: an address type ("ExternalIP",
"InternalIP", "Hostname", ...) and the address string. -/
structure NodeAddress where
  ty : String
  addr : String
deriving DecidableEq, Repr

/-- Node embeds a corev1.Node (its status address list). -/
structure Node where
  addresses : List NodeAddress
deriving DecidableEq, Repr

/-- ServicePort embeds corev1.ServicePort (Port and NodePort). -/
structure ServicePort where
  port : Int
  nodePort : Int
deriving DecidableEq, Repr

/-- Service embeds a corev1.Service (metadata plus spec ports). -/
structure Service where
  name : String
  ns : String
  ports : List ServicePort
deriving DecidableEq, Repr

/-- Secret embeds a corev1.Secret (metadata; the data entries are consumed by
the TLS synchronizer, not by the resolver embedded here). -/
structure Secret where
  name : String
  ns : String
  uid : String
deriving DecidableEq, Repr

/-- Cluster is the read-only cluster snapshot the builder queries: nodes,
namespace labels, services, routes and secrets.  List/Get calls against the
cluster cache are embedded as pure lookups into this snapshot; a Get miss is
the error the source propagates. -/
structure Cluster where
  nodes : List Node
  namespaces : List (String × List (String × String))
  services : List Service
  routes : List HTTPRoute
  secrets : List Secret
deriving Repr

/-- firstNodeIp embeds the inner loop of getNodesIpList: the first address in
list order whose type is ExternalIP or InternalIP (the loop breaks at the
first hit). -/
def firstNodeIp : List NodeAddress → Option String
  | [] => none
  | a :: rest =>
    if a.ty == "ExternalIP" || a.ty == "InternalIP" then some a.addr
    else firstNodeIp rest

/-- getNodesIpList embeds gateway.go getNodesIpList over the node list. -/
def getNodesIpList : List Node → List String
  | [] => []
  | n :: rest =>
    match firstNodeIp n.addresses with
    | some ip => ip :: getNodesIpList rest
    | none => getNodesIpList rest

/-! ## Topology builder (internal/gateway/controller/gateway.go buildGatewayInfo) -/

/-- prepListeners embeds the listener-preparation loop of buildGatewayInfo:
fail on a duplicate listener name, default the allow policy to "Same", and
record the selector only for an explicit Selector policy with MatchLabels. -/
def prepListeners : List Listener → List String → Except Err (List ListenerInfo)
  | [], _ => Except.ok []
  | l :: rest, seen =>
    if seen.contains l.name then
      Except.error (Err.msg ("duplicate listener name: " ++ l.name))
    else
      let hostname :=
        match l.hostname with
        | some h => h
        | none => ""
      let (allowedFrom, selector) :=
        match l.allowedNamespaces with
        | none => ("Same", ([] : List (String × String)))
        | some nsCfg =>
          match nsCfg.fromNs with
          | none => ("Same", [])
          | some f =>
            if f == "Selector" then
              match nsCfg.selector with
              | some sel => (f, sel)
              | none => (f, [])
            else (f, [])
      match prepListeners rest (l.name :: seen) with
      | Except.error e => Except.error e
      | Except.ok infos =>
        Except.ok ({ name := l.name, hostname := hostname, protocol := l.protocol,
                     port := l.port, allowedFrom := allowedFrom,
                     selector := selector } :: infos)

/-- validRouteHostnames embeds the hostname-validation loop over a route's
declared hostnames: every hostname must be concrete (non-empty, no '*'). -/
def validRouteHostnames (rNs rName : String) : List String → Except Err (List String)
  | [] => Except.ok []
  | h :: rest =>
    if h == "" || h.data.contains '*' then
      Except.error (Err.msg ("HTTPRoute " ++ rNs ++ "/" ++ rName ++
        ": Invalid hostname " ++ h ++ " (must be concrete, no wildcards, no empty)"))
    else
      match validRouteHostnames rNs rName rest with
      | Except.error e => Except.error e
      | Except.ok t => Except.ok (h :: t)

/-- findNodePort embeds the port-resolution loop of buildGatewayInfo: the
first service port equal to the wanted port decides; a zero NodePort on it is
an error, a missing port is an error. -/
def findNodePort (svcName : String) (ports : List ServicePort) (want : Int) :
    Except Err Int :=
  match ports.find? (fun p => p.port == want) with
  | some p =>
    if p.nodePort == 0 then
      Except.error (Err.msg ("service " ++ svcName ++
        " has no NodePort (only NodePort/LoadBalancer supported)"))
    else Except.ok p.nodePort
  | none =>
    Except.error (Err.msg ("service " ++ svcName ++ ": port " ++ toString want ++
      " not found"))

/-- collectPaths embeds the path-match collection of buildGatewayInfo: no
matches defaults to the single path "/"; a match without a path value is
skipped; an unset match type defaults to "PathPrefix"; any type other than
"PathPrefix" is skipped with a warning. -/
def collectPaths (matchList : List HTTPRouteMatch) : List String :=
  if matchList.isEmpty then ["/"]
  else
    matchList.filterMap (fun m =>
      match m.path with
      | none => none
      | some pm =>
        match pm.value with
        | none => none
        | some v =>
          let pathType :=
            match pm.ty with
            | some t => t
            | none => "PathPrefix"
          if pathType == "PathPrefix" then some v else none)

/-- processRules embeds the rules loop of buildGatewayInfo for one hostname's
virtual host: rules without backend references are skipped; only the first
backend reference is honored; non-core backend groups are rejected; the
backend service is fetched (namespace defaulting to the route's); its wanted
port is the explicit one or the first declared service port (0 when the
service declares none); the resolved node port and the collected paths are
appended to the virtual host. -/
def processRules (cl : Cluster) (nodeIps : List String) (route : HTTPRoute) :
    List HTTPRouteRule → VHostInfo → Except Err VHostInfo
  | [], vh => Except.ok vh
  | rule :: rest, vh =>
    match rule.backendRefs with
    | [] => processRules cl nodeIps route rest vh
    | backend :: _ =>
      if (backend.group.getD "") != "" then
        Except.error (Err.msg ("non-core backend groups not supported: " ++
          backend.group.getD ""))
      else
        let svcNs :=
          match backend.ns with
          | some n => n
          | none => route.ns
        match cl.services.find? (fun s => s.ns == svcNs && s.name == backend.name) with
        | none =>
          Except.error (Err.msg ("failed to get service " ++ svcNs ++ "/" ++
            backend.name))
        | some svc =>
          let wantPort :=
            match backend.port with
            | some p => p
            | none =>
              match svc.ports with
              | p :: _ => p.port
              | [] => 0
          match findNodePort svc.name svc.ports wantPort with
          | Except.error e => Except.error e
          | Except.ok nodePort =>
            let newPaths := (collectPaths rule.matchList).map (fun pa =>
              ({ path := pa, serviceName := svc.name, nodePort := nodePort,
                 nodeIps := nodeIps } : PathInfo))
            processRules cl nodeIps route rest
              { vh with paths := vh.paths ++ newPaths }

/-- BuildSt is the mutable state of the routes loop in buildGatewayInfo: the
hostname→VHostInfo map and the hostname→route-name claim map. -/
structure BuildSt where
  vhostMap : List (String × VHostInfo)
  routeForDomain : List (String × String)
deriving DecidableEq, Repr

/-- matchedListenersFor embeds the candidate-listener filter for one hostname:
a sectionName parent-ref restriction (when any is present) is applied first,
then the namespace-allow policy, then the host pattern match. -/
def matchedListenersFor (listeners : List ListenerInfo) (gw : Gateway)
    (route : HTTPRoute) (sectionNames : List String)
    (nsLabels : List (String × String)) (hostname : String) : List ListenerInfo :=
  listeners.filter (fun l =>
    (sectionNames.isEmpty || sectionNames.contains l.name) &&
    isRouteNamespaceAllowed l gw.ns route.ns nsLabels &&
    hostMatches l.hostname hostname)

/-- processHostnames embeds the per-hostname loop of buildGatewayInfo: enforce
the hostname-claim check (an already-claimed hostname is an error only when
the claiming route's NAME differs), record the claim, skip hostnames with no
candidate listeners, compute SSL and the port set from the candidates, merge
into the existing virtual host (ports deduplicated against the pre-merge set,
SSL sticky), and run the rules loop against this hostname's virtual host. -/
def processHostnames (cl : Cluster) (nodeIps : List String) (gw : Gateway)
    (listeners : List ListenerInfo) (route : HTTPRoute)
    (sectionNames : List String) (nsLabels : List (String × String)) :
    List String → BuildSt → Except Err BuildSt
  | [], st => Except.ok st
  | hostname :: rest, st =>
    let claimOk :=
      match assocLookup st.routeForDomain hostname with
      | some prev => prev == route.name
      | none => true
    if !claimOk then
      match assocLookup st.routeForDomain hostname with
      | some prev =>
        Except.error (Err.msg ("domain " ++ hostname ++
          " used in several HTTPRoute: " ++ prev ++ " and " ++ route.name))
      | none => Except.error (Err.msg "unreachable")
    else
      let st1 : BuildSt :=
        { st with routeForDomain := assocSet st.routeForDomain hostname route.name }
      let matched := matchedListenersFor listeners gw route sectionNames nsLabels hostname
      if matched.isEmpty then
        processHostnames cl nodeIps gw listeners route sectionNames nsLabels rest st1
      else
        let ssl := matched.any (fun l => l.protocol == "HTTPS")
        let ports := matched.filterMap (fun l =>
          if ssl && l.protocol == "HTTPS" then some l.port
          else if !ssl && l.protocol == "HTTP" then some l.port
          else none)
        let baseVh : VHostInfo :=
          match assocLookup st1.vhostMap hostname with
          | none => { host := hostname, ssl := ssl, ports := ports, paths := [] }
          | some vh =>
            { vh with
              ports := vh.ports ++ ports.filter (fun p => !(vh.ports.contains p)),
              ssl := vh.ssl || ssl }
        match processRules cl nodeIps route route.rules baseVh with
        | Except.error e => Except.error e
        | Except.ok vh2 =>
          processHostnames cl nodeIps gw listeners route sectionNames nsLabels rest
            { st1 with vhostMap := assocSet st1.vhostMap hostname vh2 }

/-- processRoutes embeds the routes loop of buildGatewayInfo: unattached
routes are skipped; an attached route must declare at least one concrete
hostname; the route namespace's labels are fetched; then every declared
hostname is processed. -/
def processRoutes (cl : Cluster) (nodeIps : List String) (gw : Gateway)
    (listeners : List ListenerInfo) :
    List HTTPRoute → BuildSt → Except Err BuildSt
  | [], st => Except.ok st
  | route :: rest, st =>
    if !(isRouteAttachedToGateway route gw) then
      processRoutes cl nodeIps gw listeners rest st
    else if route.hostnames.isEmpty then
      Except.error (Err.msg ("HTTPRoute " ++ route.ns ++ "/" ++ route.name ++
        ": Hostname must be specified (no wildcards, no empty values supported)"))
    else
      match validRouteHostnames route.ns route.name route.hostnames with
      | Except.error e => Except.error e
      | Except.ok routeHostnames =>
        let sectionNames := route.parentRefs.filterMap (fun pr => pr.sectionName)
        match assocLookup cl.namespaces route.ns with
        | none =>
          Except.error (Err.msg ("cannot get labels for namespace " ++ route.ns))
        | some nsLabels =>
          match processHostnames cl nodeIps gw listeners route sectionNames nsLabels
              routeHostnames st with
          | Except.error e => Except.error e
          | Except.ok st2 => processRoutes cl nodeIps gw listeners rest st2

/-- buildGatewayInfo embeds gateway.go buildGatewayInfo: collect node IPs,
prepare listeners (failing on duplicate names), process every route in the
cluster, and assemble the GatewayInfo. -/
def buildGatewayInfo (gw : Gateway) (cl : Cluster) : Except Err GatewayInfo :=
  let nodeIps := getNodesIpList cl.nodes
  match prepListeners gw.listeners [] with
  | Except.error e => Except.error e
  | Except.ok listeners =>
    match processRoutes cl nodeIps gw listeners cl.routes { vhostMap := [], routeForDomain := [] } with
    | Except.error e => Except.error e
    | Except.ok st =>
      Except.ok { uid := gw.uid, name := gw.name, ns := gw.ns, vhosts := st.vhostMap }

/-! ## TLS resolver (gateway.go buildTLSInfo) and secret mapper (handlers.go) -/

/-- TLSConfigInfo embeds types.TLSConfigInfo: exactly one of an external
certificate id or a secret reference per hostname. -/
structure TLSConfigInfo where
  externalId : String
  secret : Option Secret
deriving DecidableEq, Repr

/-- joinErrors embeds helpers.go joinErrors: one "- " bullet line per error. -/
def joinErrors (errs : List String) : String :=
  String.join (errs.map (fun e => "- " ++ e ++ "\n"))

/-- secretObjectRefVisible selects the first usable certificate reference as
buildTLSInfo does: kind nil-or-Secret and group nil-or-empty. -/
def secretObjectRefVisible (ref : SecretObjectReference) : Bool :=
  (match ref.kind with
   | some k => k == "Secret"
   | none => true) &&
  (match ref.group with
   | some g => g == ""
   | none => true)

/-- TLSStep is the outcome of processing one listener in buildTLSInfo's
loop: continue with updated accumulators, or abort the whole call. -/
inductive TLSStep where
  | abort (e : Err)
  | cont (result : List (String × TLSConfigInfo)) (errs : List String)
deriving DecidableEq, Repr

/-- firstSecretRefName is the name of the first usable certificate reference
(kind nil-or-Secret, group nil-or-empty), or "" when there is none. -/
def firstSecretRefName (refs : List SecretObjectReference) : String :=
  match refs.find? secretObjectRefVisible with
  | some ref => ref.name
  | none => ""

/-- tlsListenerStep embeds one iteration of the listener loop of
TLSInfo: non-HTTPS listeners are skipped; validation failures are
accumulated (indexed by the listener's position); a non-empty external-id
option short-circuits secret resolution; a missing usable certificate
reference is accumulated; a secret fetch miss aborts immediately.  Secrets
are fetched from the GATEWAY's own namespace (secretNS is initialised to
gw.Namespace and never changed). -/
def tlsListenerStep (gw : Gateway) (cl : Cluster) (l : Listener) (i : Nat)
    (result : List (String × TLSConfigInfo)) (errs : List String) : TLSStep :=
  if l.protocol != "HTTPS" then TLSStep.cont result errs
  else
    match validateHTTPSListener l with
    | Except.error e =>
      let emsg :=
        match e with
        | Err.msg s => s
        | Err.provider s => s
        | Err.notFound => "not found"
      TLSStep.cont result (errs ++ ["listener[" ++ toString i ++ "]: " ++ emsg])
    | Except.ok _ =>
      let hostname :=
        match l.hostname with
        | some h => h
        | none => ""
      let tlsCfg :=
        match l.tls with
        | some t => t
        | none => { mode := none, options := [], certificateRefs := [] }
      let extId :=
        match assocLookup tlsCfg.options TLS_EXTERNAL_ID_KEY with
        | some id => id
        | none => ""
      if extId != "" then
        TLSStep.cont (assocSet result hostname { externalId := extId, secret := none })
          errs
      else
        let secretName := firstSecretRefName tlsCfg.certificateRefs
        if secretName == "" then
          TLSStep.cont result (errs ++ ["listener[" ++ toString i ++ "]: no valid refs found"])
        else
          match cl.secrets.find? (fun s => s.ns == gw.ns && s.name == secretName) with
          | none =>
            TLSStep.abort (Err.msg ("can't get secret " ++ gw.ns ++ "/" ++ secretName))
          | some secret =>
            TLSStep.cont
              (assocSet result hostname { externalId := "", secret := some secret })
              errs

/-- buildTLSInfoAux runs the listener loop, threading the accumulated result
map and error list through tlsListenerStep. -/
def buildTLSInfoAux (gw : Gateway) (cl : Cluster) :
    List Listener → Nat → List (String × TLSConfigInfo) → List String →
    Except Err (List (String × TLSConfigInfo) × List String)
  | [], _, result, errs => Except.ok (result, errs)
  | l :: rest, i, result, errs =>
    match tlsListenerStep gw cl l i result errs with
    | TLSStep.abort e => Except.error e
    | TLSStep.cont result2 errs2 => buildTLSInfoAux gw cl rest (i + 1) result2 errs2

/-- buildTLSInfo embeds gateway.go buildTLSInfo: run the listener loop and
fail with the joined accumulated validation errors when any occurred. -/
def buildTLSInfo (gw : Gateway) (cl : Cluster) :
    Except Err (List (String × TLSConfigInfo)) :=
  match buildTLSInfoAux gw cl gw.listeners 0 [] [] with
  | Except.error e => Except.error e
  | Except.ok (result, errs) =>
    if errs.length > 0 then
      Except.error (Err.msg ("validation errors:\n" ++ joinErrors errs))
    else Except.ok result

/-- gatewayReferencesSecret embeds handlers.go gatewayReferencesSecret: some
listener with a TLS block must have a certificate reference with the secret's
name whose effective namespace (the reference's, defaulting to the Gateway's)
equals the secret's namespace. -/
def gatewayReferencesSecret (gw : Gateway) (secret : Secret) : Bool :=
  gw.listeners.any (fun l =>
    match l.tls with
    | none => false
    | some t =>
      t.certificateRefs.any (fun ref =>
        ref.name == secret.name &&
        (match ref.ns with
         | some n => n
         | none => gw.ns) == secret.ns))

/-! ## Reconcile orchestrator (gateway.go Reconcile), as a trace model.

Reconcile's external effects are embedded as a trace of calls; each
external collaborator's response is supplied by a ReconcileEnv oracle, so a
theorem over all oracles covers every pass. -/

/-- RCall is one externally visible action taken during a reconcile pass. -/
inductive RCall where
  | deleteLBCall
  | removeFinalizer
  | addFinalizer
  | patchCond (condType : String) (status : Bool) (reason : String)
  | warnEvent (reason : String)
  | normalEvent (reason : String)
  | ensureTLS
  | ensureLB
  | patchProgrammedTrue
deriving DecidableEq, Repr

/-- RResult is the reconcile return value: done (no requeue), requeue after a
delay in seconds, or an error returned to the scheduler. -/
inductive RResult where
  | done
  | requeue (seconds : Nat)
  | errored
deriving DecidableEq, Repr

/-- GwObj is the fetched Gateway as the state machine reads it. -/
structure GwObj where
  deletionTsSet : Bool
  hasFinalizer : Bool
deriving DecidableEq, Repr

/-- GetRes is the result of fetching the reconciled Gateway (a not-found is
swallowed by client.IgnoreNotFound). -/
inductive GetRes where
  | notFound
  | err
  | found (gw : GwObj)
deriving DecidableEq, Repr

/-- ReconcileEnv supplies every external response consumed in one pass. -/
structure ReconcileEnv where
  getGw : GetRes
  managedRes : Except Err Bool
  deleteLBRes : Except Err Unit
  removeFinPatchRes : Except Err Unit
  addFinPatchRes : Except Err Unit
  nlmPatchRes : Except Err Unit
  buildTLSRes : Except Err Unit
  buildGwRes : Except Err Unit
  ensureTLSRes : Except Err Unit
  ensureLBRes : Except Err L7LoadBalancer
  progPatchRes : Except Err Unit
deriving Repr

/-- cleanupTrace embeds gateway.go cleanup: delete the external load balancer
by label, then remove the finalizer; either failure is returned. -/
def cleanupTrace (env : ReconcileEnv) : List RCall × Except Err Unit :=
  match env.deleteLBRes with
  | Except.error e => ([RCall.deleteLBCall], Except.error e)
  | Except.ok _ =>
    match env.removeFinPatchRes with
    | Except.error e => ([RCall.deleteLBCall, RCall.removeFinalizer], Except.error e)
    | Except.ok _ => ([RCall.deleteLBCall, RCall.removeFinalizer], Except.ok ())

/-- reconcile embeds gateway.go Reconcile as a trace model, following its
control flow: fetch; cleanup-on-deletion; ownership check; cleanup plus
NoLongerManaged on unmanaged; finalizer ensure; TLS resolution and topology
build (invalid states stop without provider calls); EnsureTLS; EnsureLB;
pending-status requeue; Programmed=True with addresses on active. -/
def reconcile (env : ReconcileEnv) : List RCall × RResult :=
  match env.getGw with
  | GetRes.notFound => ([], RResult.done)
  | GetRes.err => ([], RResult.errored)
  | GetRes.found gw =>
    if gw.deletionTsSet && gw.hasFinalizer then
      let (tr, r) := cleanupTrace env
      match r with
      | Except.error _ => (tr, RResult.errored)
      | Except.ok _ => (tr, RResult.done)
    else
      match env.managedRes with
      | Except.error _ => ([], RResult.errored)
      | Except.ok managed =>
        if !managed then
          let (tr, r) := cleanupTrace env
          match r with
          | Except.error _ => (tr, RResult.errored)
          | Except.ok _ =>
            let tr2 := tr ++ [RCall.patchCond "Programmed" false "NoLongerManaged"]
            match env.nlmPatchRes with
            | Except.error _ => (tr2, RResult.errored)
            | Except.ok _ => (tr2, RResult.done)
        else
          let finTr := if !gw.hasFinalizer then [RCall.addFinalizer] else []
          let finFailed :=
            if !gw.hasFinalizer then
              match env.addFinPatchRes with
              | Except.error _ => true
              | Except.ok _ => false
            else false
          if finFailed then (finTr, RResult.errored)
          else
            match env.buildTLSRes with
            | Except.error _ =>
              (finTr ++ [RCall.warnEvent "InvalidTLS",
                         RCall.patchCond "Accepted" false "InvalidTLS"], RResult.done)
            | Except.ok _ =>
              match env.buildGwRes with
              | Except.error _ =>
                (finTr ++ [RCall.warnEvent "InvalidGateway",
                           RCall.patchCond "Accepted" false "InvalidGateway"], RResult.done)
              | Except.ok _ =>
                let tr1 := finTr ++ [RCall.patchCond "Accepted" true "Accepted",
                                     RCall.ensureTLS]
                match env.ensureTLSRes with
                | Except.error _ =>
                  (tr1 ++ [RCall.patchCond "Programmed" false "SyncTLSFailed",
                           RCall.warnEvent "SyncTLSFailed"], RResult.requeue 10)
                | Except.ok _ =>
                  let tr2 := tr1 ++ [RCall.ensureLB]
                  match env.ensureLBRes with
                  | Except.error _ =>
                    (tr2 ++ [RCall.patchCond "Programmed" false "SyncFailed",
                             RCall.warnEvent "SyncFailed"], RResult.requeue 10)
                  | Except.ok lb =>
                    if strToLower lb.status != LB_ACTIVE_STATUS then
                      (tr2 ++ [RCall.patchCond "Programmed" false "Created",
                               RCall.warnEvent "Created"], RResult.requeue 10)
                    else
                      match env.progPatchRes with
                      | Except.error _ =>
                        (tr2 ++ [RCall.patchProgrammedTrue], RResult.errored)
                      | Except.ok _ =>
                        (tr2 ++ [RCall.patchProgrammedTrue,
                                 RCall.normalEvent "Synced"], RResult.done)

/-! ## Concrete inputs and auxiliary definitions used by the theorems -/

/-- nodeC4 is a node listing its internal address before its external one. -/
def nodeC4 : Node :=
  { addresses := [{ ty := "InternalIP", addr := "10.0.0.1" },
                  { ty := "ExternalIP", addr := "1.2.3.4" }] }

/-- nodeC4b is a node listing its external address first. -/
def nodeC4b : Node :=
  { addresses := [{ ty := "ExternalIP", addr := "5.6.7.8" },
                  { ty := "InternalIP", addr := "10.0.0.2" }] }

/-! ## Claim theorems -/

/-- certA is a provider certificate with id c1 and fingerprint f1. -/
def certA : SSLCertificate :=
  { id := "c1", name := "n1", sha1Fingerprint := "f1", labels := [] }

/-- certB is a provider certificate with id c2 and fingerprint f2. -/
def certB : SSLCertificate :=
  { id := "c2", name := "n2", sha1Fingerprint := "f2", labels := [] }

/-- updOk is a provider update responder echoing the updated id. -/
def updOk : String → SSLCertificateUpdateCustomInput → Except Err SSLCertificate :=
  fun i _ => Except.ok { id := i, name := "n1", sha1Fingerprint := "f3", labels := [] }

/-- crtOk is a provider create responder returning a fresh certificate. -/
def crtOk : SSLCertificateCreateCustomInput → Except Err SSLCertificate :=
  fun _ => Except.ok { id := "new", name := "n", sha1Fingerprint := "f3", labels := [] }

/-- giW is a concrete one-vhost topology whose translation succeeds. -/
def giW : GatewayInfo :=
  { uid := "u1", name := "gw", ns := "default",
    vhosts := [("example.com",
      { host := "example.com", ssl := true, ports := [443],
        paths := [{ path := "/", serviceName := "svc", nodePort := 30080,
                    nodeIps := ["1.1.1.1"] }] })] }

/-- inputW is the translated create input for giW. -/
def inputW : L7LoadBalancerCreateInput :=
  { name := "gw-au1", locationId := 1,
    upstreamZones := [{ id := "upstream-zone-svc-30080",
                        upstreams := [{ ip := "1.1.1.1", port := 30080, weight := 1 }] }],
    vhostZones := [{ id := "vhost-zone-example.com", domains := ["example.com"],
                     sslCertId := "cert-1", ssl := true, ports := [443],
                     locationZones := [{ location := "/",
                                         upstreamId := "upstream-zone-svc-30080" }] }],
    labels := [(GW_LABEL_ID, "u1")] }

/-- createW is a provider create responder. -/
def createW : L7LoadBalancerCreateInput → Except Err L7LoadBalancer :=
  fun _ => Except.ok { id := "new-lb", status := "active", externalAddresses := [] }

/-- updateW is a provider update responder echoing the updated id. -/
def updateW : String → L7LoadBalancerUpdateInput → Except Err L7LoadBalancer :=
  fun i _ => Except.ok { id := i, status := "active", externalAddresses := ["1.2.3.4"] }

/-- gwC2 is a Gateway in namespace ns1 with a single HTTP listener open to
all route namespaces. -/
def gwC2 : Gateway :=
  { name := "gw", ns := "ns1", uid := "u1",
    listeners := [{ name := "http", hostname := none, protocol := "HTTP", port := 80,
                    allowedNamespaces := some { fromNs := some "All", selector := none },
                    tls := none }] }

/-- routeNs1 is an HTTPRoute named r in namespace ns1 claiming example.com,
attached to gwC2. -/
def routeNs1 : HTTPRoute :=
  { name := "r", ns := "ns1", hostnames := ["example.com"],
    parentRefs := [{ kind := none, group := none, name := "gw", ns := none,
                     sectionName := none }],
    rules := [] }

/-- routeNs2 is a DISTINCT HTTPRoute, also named r but living in namespace
ns2, claiming the same hostname example.com against the same Gateway. -/
def routeNs2 : HTTPRoute :=
  { name := "r", ns := "ns2", hostnames := ["example.com"],
    parentRefs := [{ kind := none, group := none, name := "gw", ns := some "ns1",
                     sectionName := none }],
    rules := [] }

/-- clusterC2 holds both same-named routes (and their namespaces). -/
def clusterC2 : Cluster :=
  { nodes := [], namespaces := [("ns1", []), ("ns2", [])], services := [],
    routes := [routeNs1, routeNs2], secrets := [] }

/-- giC2expected is the GatewayInfo the build actually produces for
clusterC2: it succeeds, with both routes' claims silently merged. -/
def giC2expected : GatewayInfo :=
  { uid := "u1", name := "gw", ns := "ns1",
    vhosts := [("example.com",
      { host := "example.com", ssl := false, ports := [80], paths := [] })] }

/-- gwC3 has an HTTP listener restricted to its own namespace and an HTTPS
listener open (by label selector team=a) to other namespaces. -/
def gwC3 : Gateway :=
  { name := "gw", ns := "ns1", uid := "u1",
    listeners :=
      [{ name := "http", hostname := none, protocol := "HTTP", port := 80,
         allowedNamespaces := none, tls := none },
       { name := "https", hostname := none, protocol := "HTTPS", port := 443,
         allowedNamespaces := some { fromNs := some "Selector",
                                     selector := some [("team", "a")] },
         tls := none }] }

/-- clusterC3 labels ns2 with team=a, so routeNs1 matches only the HTTP
listener while routeNs2 (same name, different namespace) matches only the
HTTPS listener for the same hostname. -/
def clusterC3 : Cluster :=
  { nodes := [], namespaces := [("ns1", []), ("ns2", [("team", "a")])],
    services := [], routes := [routeNs1, routeNs2], secrets := [] }

/-- giC3expected is what the build produces: one vhost with SSL set AND the
HTTP listener's port 80 kept in the port set. -/
def giC3expected : GatewayInfo :=
  { uid := "u1", name := "gw", ns := "ns1",
    vhosts := [("example.com",
      { host := "example.com", ssl := true, ports := [80, 443], paths := [] })] }

def setCertRefNs (f : Option String → Option String) (ref : SecretObjectReference) :
    SecretObjectReference :=
  { ref with ns := f ref.ns }

def mapListenerCertRefNs (f : Option String → Option String) (l : Listener) : Listener :=
  { l with tls := l.tls.map (fun t =>
      { t with certificateRefs := t.certificateRefs.map (setCertRefNs f) }) }

def mapGatewayCertRefNs (f : Option String → Option String) (gw : Gateway) : Gateway :=
  { gw with listeners := gw.listeners.map (mapListenerCertRefNs f) }

def secretC10 : Secret := { name := "s1", ns := "default", uid := "su1" }

def gwC10 : Gateway :=
  { name := "g", ns := "default", uid := "gu1",
    listeners := [{ name := "https", hostname := some "h.example.com", protocol := "HTTPS",
                    port := 443, allowedNamespaces := none,
                    tls := some { mode := some "Terminate", options := [],
                                  certificateRefs := [{ kind := none, group := none,
                                                        name := "s1", ns := some "other" }] } }] }

def clC10 : Cluster :=
  { nodes := [], namespaces := [], services := [], routes := [], secrets := [secretC10] }

def mC10 : List (String × TLSConfigInfo) :=
  [("h.example.com", { externalId := "", secret := some secretC10 })]

def envW : ReconcileEnv :=
  { getGw := GetRes.found { deletionTsSet := false, hasFinalizer := true },
    managedRes := Except.ok true, deleteLBRes := Except.ok (),
    removeFinPatchRes := Except.ok (), addFinPatchRes := Except.ok (),
    nlmPatchRes := Except.ok (), buildTLSRes := Except.ok (),
    buildGwRes := Except.ok (), ensureTLSRes := Except.ok (),
    ensureLBRes := Except.ok { id := "lb1", status := "active",
                               externalAddresses := ["1.2.3.4"] },
    progPatchRes := Except.ok () }

/-! ## Supporting lemmas -/

/-- getNodesIpList distributes over list append. -/
theorem getNodesIpList_append (xs ys : List Node) :
    getNodesIpList (xs ++ ys) = getNodesIpList xs ++ getNodesIpList ys := by
  induction xs with
  | nil => rfl
  | cons n t ih =>
    simp only [List.cons_append, getNodesIpList]
    cases firstNodeIp n.addresses with
    | none => simpa using ih
    | some ip => simp [ih]

/-- firstNodeIp returns the first External-or-Internal address in order. -/
theorem firstNodeIp_first_hit (pre : List NodeAddress) (a : NodeAddress)
    (rest : List NodeAddress)
    (hpre : ∀ b ∈ pre, (b.ty == "ExternalIP" || b.ty == "InternalIP") = false)
    (ha : (a.ty == "ExternalIP" || a.ty == "InternalIP") = true) :
    firstNodeIp (pre ++ a :: rest) = some a.addr := by
  induction pre with
  | nil => simp [firstNodeIp, ha]
  | cons b t ih =>
    have hb := hpre b (by simp)
    simp only [List.cons_append, firstNodeIp, hb]
    exact ih (fun x hx => hpre x (by simp [hx]))

/-- findCertificate on a successful listing returns the first fingerprint
match, else the first certificate, else none. -/
theorem findCertificate_ok (certs : List SSLCertificate) (fp : String) :
    findCertificate (Except.ok certs) fp =
      Except.ok ((certs.find? (fun c => c.sha1Fingerprint == fp)).orElse
        (fun _ => certs.head?)) := by
  cases h : certs.find? (fun c => c.sha1Fingerprint == fp) with
  | some c => simp [findCertificate, h, Option.orElse]
  | none =>
    cases certs with
    | nil => simp [findCertificate, h, Option.orElse]
    | cons c t => simp [findCertificate, h, Option.orElse]

theorem secretObjectRefVisible_mapNs (f : Option String → Option String)
    (ref : SecretObjectReference) :
    secretObjectRefVisible (setCertRefNs f ref) = secretObjectRefVisible ref := by
  cases ref with
  | mk k g n ns => rfl

theorem firstSecretRefName_mapNs (f : Option String → Option String)
    (refs : List SecretObjectReference) :
    firstSecretRefName (refs.map (setCertRefNs f)) = firstSecretRefName refs := by
  have hp : (secretObjectRefVisible ∘ setCertRefNs f) = secretObjectRefVisible :=
    funext (secretObjectRefVisible_mapNs f)
  unfold firstSecretRefName
  rw [List.find?_map, hp]
  cases hr : refs.find? secretObjectRefVisible with
  | none => rfl
  | some r =>
    obtain ⟨rk, rg, rn, rns⟩ := r
    rfl

theorem validateHTTPSListener_refs_irrel (nm : String) (h : Option String) (pr : String)
    (po : Int) (an : Option RouteNamespaces) (mode : Option String)
    (opts : List (String × String)) (refs refs2 : List SecretObjectReference) :
    validateHTTPSListener ⟨nm, h, pr, po, an, some ⟨mode, opts, refs⟩⟩
      = validateHTTPSListener ⟨nm, h, pr, po, an, some ⟨mode, opts, refs2⟩⟩ := rfl

theorem tlsListenerStep_mapNs (f : Option String → Option String) (gw : Gateway)
    (cl : Cluster) (l : Listener) (i : Nat) (res : List (String × TLSConfigInfo))
    (errs : List String) :
    tlsListenerStep (mapGatewayCertRefNs f gw) cl (mapListenerCertRefNs f l) i res errs
      = tlsListenerStep gw cl l i res errs := by
  obtain ⟨gnm, gns, guid, gls⟩ := gw
  obtain ⟨nm, h, pr, po, an, tls⟩ := l
  cases tls with
  | none => rfl
  | some t =>
    obtain ⟨mode, opts, refs⟩ := t
    simp only [tlsListenerStep, mapListenerCertRefNs, mapGatewayCertRefNs, Option.map]
    rw [validateHTTPSListener_refs_irrel nm h pr po an mode opts
      (refs.map (setCertRefNs f)) refs]
    rw [firstSecretRefName_mapNs]

theorem buildTLSInfoAux_mapNs (f : Option String → Option String) (gw : Gateway)
    (cl : Cluster) :
    ∀ (ls : List Listener) (i : Nat) (res : List (String × TLSConfigInfo))
      (errs : List String),
      buildTLSInfoAux (mapGatewayCertRefNs f gw) cl (ls.map (mapListenerCertRefNs f))
          i res errs
        = buildTLSInfoAux gw cl ls i res errs := by
  intro ls
  induction ls with
  | nil => intro i res errs; rfl
  | cons l rest ih =>
    intro i res errs
    simp only [List.map_cons, buildTLSInfoAux, tlsListenerStep_mapNs]
    cases tlsListenerStep gw cl l i res errs with
    | abort e => rfl
    | cont r2 e2 => exact ih (i + 1) r2 e2

theorem buildTLSInfo_mapNs (f : Option String → Option String) (gw : Gateway)
    (cl : Cluster) :
    buildTLSInfo (mapGatewayCertRefNs f gw) cl = buildTLSInfo gw cl := by
  unfold buildTLSInfo
  have : (mapGatewayCertRefNs f gw).listeners = gw.listeners.map (mapListenerCertRefNs f) := by
    cases gw; rfl
  rw [this, buildTLSInfoAux_mapNs]

-- part (b): secrets in the output come from the gateway's namespace

theorem assocSet_mem {α : Type} (m : List (String × α)) (k : String) (v : α)
    (p : String × α) (hp : p ∈ assocSet m k v) : p ∈ m ∨ p = (k, v) := by
  induction m with
  | nil => simpa [assocSet] using hp
  | cons q t ih =>
    by_cases hq : (q.1 == k) = true
    · simp [assocSet, hq] at hp
      rcases hp with h1 | h1
      · right
        have : q.1 = k := by simpa using hq
        simp [h1]
      · left; simp [h1]
    · simp [assocSet, hq] at hp
      rcases hp with h1 | h1
      · left; simp [h1]
      · rcases ih h1 with h2 | h2
        · left; simp [h2]
        · right; exact h2

theorem tlsListenerStep_cases (gw : Gateway) (cl : Cluster) (l : Listener) (i : Nat)
    (res : List (String × TLSConfigInfo)) (errs : List String) :
    (∃ errs2, tlsListenerStep gw cl l i res errs = TLSStep.cont res errs2) ∨
    (∃ hst cfg, tlsListenerStep gw cl l i res errs
        = TLSStep.cont (assocSet res hst cfg) errs ∧
      (cfg.secret = none ∨ ∃ s, cfg.secret = some s ∧ s.ns = gw.ns)) ∨
    (∃ e, tlsListenerStep gw cl l i res errs = TLSStep.abort e) := by
  unfold tlsListenerStep
  split
  · exact Or.inl ⟨errs, rfl⟩
  · split
    · exact Or.inl ⟨_, rfl⟩
    · dsimp only
      split
      · refine Or.inr (Or.inl ⟨_, _, rfl, Or.inl rfl⟩)
      · split
        · exact Or.inl ⟨_, rfl⟩
        · split
          · exact Or.inr (Or.inr ⟨_, rfl⟩)
          · rename_i secret hfound
            refine Or.inr (Or.inl ⟨_, _, rfl, Or.inr ⟨secret, rfl, ?_⟩⟩)
            have := List.find?_some hfound
            simp only [Bool.and_eq_true, beq_iff_eq] at this
            exact this.1

theorem buildTLSInfoAux_secret_ns (gw : Gateway) (cl : Cluster) :
    ∀ (ls : List Listener) (i : Nat) (res : List (String × TLSConfigInfo))
      (errs : List String) (m : List (String × TLSConfigInfo)) (fe : List String),
      (∀ p ∈ res, ∀ s, p.2.secret = some s → s.ns = gw.ns) →
      buildTLSInfoAux gw cl ls i res errs = Except.ok (m, fe) →
      ∀ p ∈ m, ∀ s, p.2.secret = some s → s.ns = gw.ns := by
  intro ls
  induction ls with
  | nil =>
    intro i res errs m fe hinv heq
    simp only [buildTLSInfoAux] at heq
    cases heq
    exact hinv
  | cons l rest ih =>
    intro i res errs m fe hinv heq
    rcases tlsListenerStep_cases gw cl l i res errs with
      ⟨e2, hstep⟩ | ⟨hst, cfg, hstep, hcfg⟩ | ⟨e, hstep⟩
    · simp only [buildTLSInfoAux, hstep] at heq
      exact ih (i + 1) res e2 m fe hinv heq
    · simp only [buildTLSInfoAux, hstep] at heq
      refine ih (i + 1) (assocSet res hst cfg) errs m fe ?_ heq
      intro p hp s hs
      rcases assocSet_mem res hst cfg p hp with h1 | h1
      · exact hinv p h1 s hs
      · rcases hcfg with hnone | ⟨s2, hs2, hns⟩
        · rw [h1] at hs
          simp [hnone] at hs
        · rw [h1] at hs
          simp only [hs2] at hs
          cases hs
          exact hns
    · simp only [buildTLSInfoAux, hstep] at heq
      cases heq

theorem buildTLSInfo_secret_ns (gw : Gateway) (cl : Cluster)
    (m : List (String × TLSConfigInfo)) (heq : buildTLSInfo gw cl = Except.ok m) :
    ∀ p ∈ m, ∀ s, p.2.secret = some s → s.ns = gw.ns := by
  unfold buildTLSInfo at heq
  cases haux : buildTLSInfoAux gw cl gw.listeners 0 [] [] with
  | error e => rw [haux] at heq; cases heq
  | ok pr =>
    obtain ⟨result, errs⟩ := pr
    rw [haux] at heq
    by_cases herr : errs.length > 0
    · simp [herr] at heq
    · simp [herr] at heq
      subst heq
      exact buildTLSInfoAux_secret_ns gw cl gw.listeners 0 [] [] result errs
        (by intro p hp; cases hp) haux

theorem gatewayReferencesSecret_iff (gw : Gateway) (secret : Secret) :
    gatewayReferencesSecret gw secret = true ↔
      ∃ l ∈ gw.listeners, ∃ t, l.tls = some t ∧
        ∃ ref ∈ t.certificateRefs, ref.name = secret.name ∧
          (match ref.ns with | some n => n | none => gw.ns) = secret.ns := by
  unfold gatewayReferencesSecret
  rw [List.any_eq_true]
  constructor
  · rintro ⟨l, hl, hbody⟩
    cases hlt : l.tls with
    | none => rw [hlt] at hbody; cases hbody
    | some t =>
      rw [hlt] at hbody
      rw [List.any_eq_true] at hbody
      obtain ⟨ref, href, hcond⟩ := hbody
      rw [Bool.and_eq_true] at hcond
      refine ⟨l, hl, t, hlt, ref, href, ?_, ?_⟩
      · exact beq_iff_eq.mp hcond.1
      · exact beq_iff_eq.mp hcond.2
  · rintro ⟨l, hl, t, hlt, ref, href, hname, hns⟩
    refine ⟨l, hl, ?_⟩
    rw [hlt]
    rw [List.any_eq_true]
    refine ⟨ref, href, ?_⟩
    rw [Bool.and_eq_true]
    exact ⟨beq_iff_eq.mpr hname, beq_iff_eq.mpr hns⟩

theorem traceDecomp (finTr tail : List RCall) :
    ∃ pre suf,
      ((finTr ++ [RCall.patchCond "Accepted" true "Accepted", RCall.ensureTLS])
          ++ [RCall.ensureLB]) ++ tail
        = pre ++ RCall.ensureTLS :: RCall.ensureLB :: suf := by
  refine ⟨finTr ++ [RCall.patchCond "Accepted" true "Accepted"], tail, ?_⟩
  simp

theorem reconcile_lb_shape :
    ∀ env : ReconcileEnv,
      RCall.ensureLB ∉ (reconcile env).1 ∨
      (env.ensureTLSRes = Except.ok () ∧
        ∃ pre suf, (reconcile env).1 = pre ++ RCall.ensureTLS :: RCall.ensureLB :: suf) := by
  intro env
  obtain ⟨g, mg, dl, rf, af, nlm, btls, bgw, etls, elb, pp⟩ := env
  cases g with
  | notFound => left; simp [reconcile]
  | err => left; simp [reconcile]
  | found gw =>
    obtain ⟨dts, fin⟩ := gw
    cases dts <;> cases fin
    case true.true =>
      left
      cases dl with
      | error e => simp [reconcile, cleanupTrace]
      | ok u =>
        cases rf with
        | error e2 => simp [reconcile, cleanupTrace]
        | ok u2 => simp [reconcile, cleanupTrace]
    all_goals
      cases mg with
      | error e => left; simp [reconcile]
      | ok managed =>
        cases managed with
        | false =>
          left
          cases dl with
          | error e => simp [reconcile, cleanupTrace]
          | ok u =>
            cases rf with
            | error e2 => simp [reconcile, cleanupTrace]
            | ok u2 => cases nlm <;> simp [reconcile, cleanupTrace]
        | true =>
          cases af with
          | error e4 =>
            first
            | (left
               simp [reconcile]
               done)
            | (cases btls with
               | error e5 => left; simp [reconcile]
               | ok u5 =>
                 cases bgw with
                 | error e6 => left; simp [reconcile]
                 | ok u6 =>
                   cases etls with
                   | error e7 => left; simp [reconcile]
                   | ok u7 =>
                     right
                     refine ⟨rfl, ?_⟩
                     cases elb with
                     | error e8 => exact traceDecomp _ _
                     | ok lb =>
                       cases hst : (strToLower lb.status != LB_ACTIVE_STATUS) with
                       | true =>
                         simp only [reconcile]
                         rw [hst]
                         exact traceDecomp _ _
                       | false =>
                         simp only [reconcile]
                         rw [hst]
                         cases pp with
                         | error e9 => exact traceDecomp _ _
                         | ok u9 => exact traceDecomp _ _)
          | ok u4 =>
            cases btls with
            | error e5 => left; simp [reconcile]
            | ok u5 =>
              cases bgw with
              | error e6 => left; simp [reconcile]
              | ok u6 =>
                cases etls with
                | error e7 => left; simp [reconcile]
                | ok u7 =>
                  right
                  refine ⟨rfl, ?_⟩
                  cases elb with
                  | error e8 => exact traceDecomp _ _
                  | ok lb =>
                    cases hst : (strToLower lb.status != LB_ACTIVE_STATUS) with
                    | true =>
                      simp only [reconcile]
                      rw [hst]
                      exact traceDecomp _ _
                    | false =>
                      simp only [reconcile]
                      rw [hst]
                      cases pp with
                      | error e9 => exact traceDecomp _ _
                      | ok u9 => exact traceDecomp _ _

/-! ## Claim theorems -/

/-- C1 (code_bug evaluation): when the provider list call returns zero load
balancers with a nil error — the very outcome EnsureLB's create path handles —
DeleteLB dereferences lbs[0] on an empty slice and panics, for every possible
provider delete responder.  The claim (and the source's own idempotent-delete
intent) requires success with no delete call instead. -/
theorem deleteLB_empty_list_crashes :
    ∀ delRes : String → Option Err,
      deleteLB (Except.ok []) delRes = DeleteOutcome.crash := by
  intro d
  rfl

/-- C9: hostMatches satisfies all five specified cases: empty listener host
matches anything; reflexivity; a "*.suffix" pattern matches a proper
subdomain but not the apex; unrelated hosts do not match. -/
theorem hostMatches_spec :
    (∀ h : String, hostMatches "" h = true) ∧
    (∀ h : String, hostMatches h h = true) ∧
    hostMatches "*.example.com" "sub.example.com" = true ∧
    hostMatches "*.example.com" "example.com" = false ∧
    hostMatches "foo.example.com" "bar.example.com" = false := by
  refine ⟨?_, ?_, by decide, by decide, by decide⟩
  · intro h
    simp [hostMatches]
  · intro h
    unfold hostMatches
    by_cases h0 : h == ""
    · simp [h0]
    · simp [h0]

/-- C4 counterexample: a node whose address list carries its InternalIP entry
before its ExternalIP entry contributes the internal IP, although an external
IP exists — refuting "external whenever the node has one". -/
theorem getNodesIpList_internal_first_cex :
    getNodesIpList [nodeC4] = ["10.0.0.1"] ∧
    nodeC4.addresses.any (fun a => a.ty == "ExternalIP") = true ∧
    getNodesIpList [nodeC4] ≠ ["1.2.3.4"] := by
  refine ⟨rfl, rfl, by decide⟩

/-- C4 amended: the IP collected for a node is the address of the FIRST entry
in the node's address-list order whose type is ExternalIP or InternalIP —
list order, not a preference for external, decides; nodes without such an
entry contribute nothing. -/
theorem getNodesIpList_first_listed :
    ∀ (pre : List NodeAddress) (a : NodeAddress) (rest : List NodeAddress)
      (n : Node) (nodes₁ nodes₂ : List Node),
      n.addresses = pre ++ a :: rest →
      (∀ b ∈ pre, (b.ty == "ExternalIP" || b.ty == "InternalIP") = false) →
      (a.ty == "ExternalIP" || a.ty == "InternalIP") = true →
      getNodesIpList (nodes₁ ++ n :: nodes₂) =
        getNodesIpList nodes₁ ++ a.addr :: getNodesIpList nodes₂ := by
  intro pre a rest n nodes₁ nodes₂ haddr hpre ha
  rw [getNodesIpList_append]
  have h1 : firstNodeIp n.addresses = some a.addr := by
    rw [haddr]
    exact firstNodeIp_first_hit pre a rest hpre ha
  simp [getNodesIpList, h1]

/-- C4 witness: instantiating the amended theorem at a concrete node whose
external address is listed first. -/
theorem getNodesIpList_first_listed_witness :
    getNodesIpList [nodeC4b] = getNodesIpList [] ++ "5.6.7.8" :: getNodesIpList [] :=
  getNodesIpList_first_listed []
    { ty := "ExternalIP", addr := "5.6.7.8" }
    [{ ty := "InternalIP", addr := "10.0.0.2" }]
    nodeC4b [] [] rfl (by intro b hb; cases hb) rfl

/-- C5 counterexample: with TWO certificates labeled with the secret's UID
(neither matching the wanted fingerprint f3), the synchronization does not
return an error: it silently issues an in-place update on the first
certificate's id — refuting "returns an error and never auto-resolves". -/
theorem ensureCertificate_two_certs_no_error_cex :
    ensureCertificateForSecret "f3" "uid1" "CRT" "KEY" ""
        (Except.ok [certA, certB]) updOk crtOk
      = ([TLSCall.update "c1" (certUpdateInput "CRT" "KEY" "")],
         Except.ok { id := "c1", name := "n1", sha1Fingerprint := "f3", labels := [] })
    ∧ 1 < [certA, certB].length := by
  exact ⟨rfl, by decide⟩

/-- C5 amended: when the provider holds more than one certificate under the
secret's label, no error is raised for the multiplicity; the first
certificate whose fingerprint matches is reused unchanged, and otherwise the
FIRST listed certificate is picked ("Return first for update use"): an
in-place update on its id when that id is nonempty, a create otherwise. -/
theorem ensureCertificate_multi_label_behavior :
    ∀ (fp uid cert key chain : String) (c : SSLCertificate)
      (cs : List SSLCertificate)
      (updRes : String → SSLCertificateUpdateCustomInput → Except Err SSLCertificate)
      (crtRes : SSLCertificateCreateCustomInput → Except Err SSLCertificate),
      0 < cs.length →
      ensureCertificateForSecret fp uid cert key chain (Except.ok (c :: cs))
          updRes crtRes =
        match (c :: cs).find? (fun x => x.sha1Fingerprint == fp) with
        | some m => ([], Except.ok m)
        | none =>
          if c.id != "" then
            ([TLSCall.update c.id (certUpdateInput cert key chain)],
             updRes c.id (certUpdateInput cert key chain))
          else
            ([TLSCall.create (certCreateInput uid cert key chain)],
             crtRes (certCreateInput uid cert key chain)) := by
  intro fp uid cert key chain c cs updRes crtRes _hlen
  unfold ensureCertificateForSecret
  rw [findCertificate_ok]
  cases hfind : (c :: cs).find? (fun x => x.sha1Fingerprint == fp) with
  | some m =>
    have hm := List.find?_some hfind
    simp only [] at hm
    simp [Option.orElse, hm]
  | none =>
    have hc : ¬((c.sha1Fingerprint == fp) = true) := by
      have := List.find?_eq_none.mp hfind c (by simp)
      simpa using this
    simp only [Option.orElse, List.head?]
    simp [hc]

/-- C5 witness: instantiating the amended theorem on two certificates where
no fingerprint matches. -/
theorem ensureCertificate_multi_label_behavior_witness :
    ensureCertificateForSecret "f3" "uidw" "C" "K" ""
        (Except.ok [certA, certB]) updOk crtOk
      = ([TLSCall.update "c1" (certUpdateInput "C" "K" "")],
         updOk "c1" (certUpdateInput "C" "K" "")) :=
  (ensureCertificate_multi_label_behavior "f3" "uidw" "C" "K" "" certA [certB]
    updOk crtOk (by decide)).trans rfl

/-- C7: TLS synchronization for a secret-backed host is idempotent on the
provider state: a stored certificate whose fingerprint equals the computed
leaf fingerprint is reused as-is (its id returned, no provider mutation); a
stored certificate with a different fingerprint and a nonempty id receives an
in-place update on that id (never a create); when nothing is stored (empty
listing, or a swallowed not-found from the listing) a new certificate named
after and labeled with the secret's UID is created. -/
theorem ensureCertificate_idempotent_cases :
    ∀ (fp uid cert key chain : String) (certs : List SSLCertificate)
      (updRes : String → SSLCertificateUpdateCustomInput → Except Err SSLCertificate)
      (crtRes : SSLCertificateCreateCustomInput → Except Err SSLCertificate),
      (∀ m, certs.find? (fun x => x.sha1Fingerprint == fp) = some m →
        ensureCertificateForSecret fp uid cert key chain (Except.ok certs) updRes crtRes
          = ([], Except.ok m)) ∧
      (∀ c cs, certs = c :: cs →
        certs.find? (fun x => x.sha1Fingerprint == fp) = none →
        c.id ≠ "" →
        ensureCertificateForSecret fp uid cert key chain (Except.ok certs) updRes crtRes
          = ([TLSCall.update c.id (certUpdateInput cert key chain)],
             updRes c.id (certUpdateInput cert key chain))) ∧
      (certs = [] →
        ensureCertificateForSecret fp uid cert key chain (Except.ok certs) updRes crtRes
          = ([TLSCall.create (certCreateInput uid cert key chain)],
             crtRes (certCreateInput uid cert key chain))) ∧
      (ensureCertificateForSecret fp uid cert key chain (Except.error Err.notFound)
          updRes crtRes
        = ([TLSCall.create (certCreateInput uid cert key chain)],
           crtRes (certCreateInput uid cert key chain))) := by
  intro fp uid cert key chain certs updRes crtRes
  refine ⟨?_, ?_, ?_, ?_⟩
  · intro m hfind
    have hm := List.find?_some hfind
    simp only [] at hm
    unfold ensureCertificateForSecret
    rw [findCertificate_ok, hfind]
    simp [Option.orElse, hm]
  · intro c cs hcerts hfind hid
    subst hcerts
    have hc : ¬((c.sha1Fingerprint == fp) = true) := by
      have := List.find?_eq_none.mp hfind c (by simp)
      simpa using this
    have hid' : (c.id != "") = true := by
      simpa using hid
    unfold ensureCertificateForSecret
    rw [findCertificate_ok, hfind]
    simp [Option.orElse, List.head?, hc, hid']
  · intro hcerts
    subst hcerts
    rfl
  · rfl

/-- C7 witness: the three provider-visible branches at concrete inputs —
matching fingerprint reused with no mutation, differing fingerprint updated
in place on the stored id, empty store created under the secret label. -/
theorem ensureCertificate_idempotent_cases_witness :
    (ensureCertificateForSecret "f1" "u" "C" "K" "" (Except.ok [certA]) updOk crtOk
      = ([], Except.ok certA)) ∧
    (ensureCertificateForSecret "f9" "u" "C" "K" "" (Except.ok [certA]) updOk crtOk
      = ([TLSCall.update certA.id (certUpdateInput "C" "K" "")],
         updOk certA.id (certUpdateInput "C" "K" ""))) ∧
    (ensureCertificateForSecret "f9" "u" "C" "K" "" (Except.ok []) updOk crtOk
      = ([TLSCall.create (certCreateInput "u" "C" "K" "")],
         crtOk (certCreateInput "u" "C" "K" ""))) := by
  refine ⟨?_, ?_, ?_⟩
  · exact (ensureCertificate_idempotent_cases "f1" "u" "C" "K" "" [certA] updOk crtOk).1
      certA (by rfl)
  · exact (ensureCertificate_idempotent_cases "f9" "u" "C" "K" "" [certA] updOk crtOk).2.1
      certA [] rfl (by rfl) (by decide)
  · exact (ensureCertificate_idempotent_cases "f9" "u" "C" "K" "" [] updOk crtOk).2.2.1
      rfl

/-- C6: EnsureLB's four cases.  Zero labeled load balancers: the provider
create is invoked with the translated topology (whenever translation
succeeds, which the claim's "the translated topology" presupposes).  Exactly
one with case-insensitively active status: a full update is invoked on its
id.  Exactly one with a non-active status: no create and no update, and the
returned result carries only that status.  More than one: an error, with no
call invoked. -/
theorem ensureLB_cases :
    ∀ (gi : GatewayInfo) (cm : List (String × String))
      (createRes : L7LoadBalancerCreateInput → Except Err L7LoadBalancer)
      (updateRes : String → L7LoadBalancerUpdateInput → Except Err L7LoadBalancer),
      (∀ input, translateGatewayToLBInput gi cm = Except.ok input →
        ensureLB gi cm (Except.ok []) createRes updateRes
          = ([LBCall.create input], createRes input)) ∧
      (∀ lb input, equalFold lb.status LB_ACTIVE_STATUS = true →
        translateGatewayToLBInput gi cm = Except.ok input →
        ensureLB gi cm (Except.ok [lb]) createRes updateRes
          = ([LBCall.update lb.id (toUpdateInput input)],
             updateRes lb.id (toUpdateInput input))) ∧
      (∀ lb, equalFold lb.status LB_ACTIVE_STATUS = false →
        ensureLB gi cm (Except.ok [lb]) createRes updateRes
          = ([], Except.ok { id := "", status := lb.status, externalAddresses := [] })) ∧
      (∀ lbs, 1 < lbs.length →
        ensureLB gi cm (Except.ok lbs) createRes updateRes
          = ([], Except.error (Err.msg "found more than one lb with same label"))) := by
  intro gi cm createRes updateRes
  refine ⟨?_, ?_, ?_, ?_⟩
  · intro input htr
    simp [ensureLB, htr]
  · intro lb input hact htr
    simp [ensureLB, hact, htr]
  · intro lb hact
    simp [ensureLB, hact]
  · intro lbs hlen
    cases lbs with
    | nil => simp at hlen
    | cons lb rest =>
      have hrest : rest.length > 0 := by
        simpa using Nat.lt_of_succ_lt_succ (by simpa using hlen)
      simp [ensureLB, hrest]

/-- C6 witness: all four cases at concrete inputs, including the
case-insensitive "Active" match and a "pending" sentinel. -/
theorem ensureLB_cases_witness :
    (ensureLB giW [("example.com", "cert-1")] (Except.ok []) createW updateW
      = ([LBCall.create inputW], createW inputW)) ∧
    (ensureLB giW [("example.com", "cert-1")]
        (Except.ok [{ id := "lb1", status := "Active" }]) createW updateW
      = ([LBCall.update "lb1" (toUpdateInput inputW)],
         updateW "lb1" (toUpdateInput inputW))) ∧
    (ensureLB giW [("example.com", "cert-1")]
        (Except.ok [{ id := "lb1", status := "pending" }]) createW updateW
      = ([], Except.ok { id := "", status := "pending", externalAddresses := [] })) ∧
    (ensureLB giW [("example.com", "cert-1")]
        (Except.ok [{ id := "lb1", status := "active" },
                    { id := "lb2", status := "active" }]) createW updateW
      = ([], Except.error (Err.msg "found more than one lb with same label"))) := by
  refine ⟨?_, ?_, ?_, ?_⟩
  · exact (ensureLB_cases giW [("example.com", "cert-1")] createW updateW).1
      inputW (by rfl)
  · exact (ensureLB_cases giW [("example.com", "cert-1")] createW updateW).2.1
      { id := "lb1", status := "Active" } inputW (by rfl) (by rfl)
  · exact (ensureLB_cases giW [("example.com", "cert-1")] createW updateW).2.2.1
      { id := "lb1", status := "pending" } (by rfl)
  · exact (ensureLB_cases giW [("example.com", "cert-1")] createW updateW).2.2.2
      [{ id := "lb1", status := "active" }, { id := "lb2", status := "active" }]
      (by decide)

/-- C2 (code_bug evaluation): two DISTINCT attached HTTPRoutes in different
namespaces (sharing the name r) both declare example.com, yet
buildGatewayInfo SUCCEEDS — the global-hostname-uniqueness check compares
route names only (prev != route.Name), so same-named routes from different
namespaces bypass it, where the claim (and the check's own error message,
"domain used in several HTTPRoute") requires a validation failure for the
whole pass. -/
theorem buildGatewayInfo_same_name_routes_accepted :
    buildGatewayInfo gwC2 clusterC2 = Except.ok giC2expected ∧
    routeNs1 ≠ routeNs2 ∧
    isRouteAttachedToGateway routeNs1 gwC2 = true ∧
    isRouteAttachedToGateway routeNs2 gwC2 = true := by
  refine ⟨by rfl, by decide, by rfl, by rfl⟩

/-- C3 (code_bug evaluation): the build succeeds and returns a VHostInfo for
example.com with SSL = true whose port set contains 80 — the port of the
HTTP (not HTTPS) listener — violating the claimed invariant that an SSL
vhost's port set contains only HTTPS listener ports.  The violating merge is
reachable through the same route-name-identity slip as C2. -/
theorem buildGatewayInfo_mixed_ssl_ports :
    buildGatewayInfo gwC3 clusterC3 = Except.ok giC3expected ∧
    (assocLookup giC3expected.vhosts "example.com").map (fun vh => vh.ssl)
      = some true ∧
    (assocLookup giC3expected.vhosts "example.com").map (fun vh => vh.ports.contains 80)
      = some true ∧
    (gwC3.listeners.find? (fun l => l.port == 80)).map (fun l => l.protocol)
      = some "HTTP" := by
  refine ⟨by rfl, by rfl, by rfl, by rfl⟩

/-- C8: in every reconcile pass, over every possible environment of external
responses, an EnsureLB call appears in the trace only when EnsureTLS
succeeded in that pass, and then strictly after the EnsureTLS call; whenever
EnsureTLS returns an error, no EnsureLB call is made. -/
theorem reconcile_tls_before_lb :
    ∀ env : ReconcileEnv,
      (RCall.ensureLB ∈ (reconcile env).1 →
        env.ensureTLSRes = Except.ok () ∧
        ∃ pre suf, (reconcile env).1 = pre ++ RCall.ensureTLS :: RCall.ensureLB :: suf) ∧
      (∀ e, env.ensureTLSRes = Except.error e → RCall.ensureLB ∉ (reconcile env).1) := by
  intro env
  constructor
  · intro hmem
    rcases reconcile_lb_shape env with hno | hyes
    · exact absurd hmem hno
    · exact hyes
  · intro e he hmem
    rcases reconcile_lb_shape env with hno | ⟨hok, _⟩
    · exact hno hmem
    · rw [he] at hok
      cases hok

/-- C8 witness: a concrete healthy pass whose trace contains the EnsureLB
call, so the theorem applies with its membership hypothesis discharged. -/
theorem reconcile_tls_before_lb_witness :
    envW.ensureTLSRes = Except.ok () ∧
    ∃ pre suf, (reconcile envW).1 = pre ++ RCall.ensureTLS :: RCall.ensureLB :: suf :=
  (reconcile_tls_before_lb envW).1 (by decide)

/-- C10: the TLS Resolver fetches every referenced Secret from the Gateway's
OWN namespace unconditionally — buildTLSInfo's output is invariant under any
rewriting of the certificate references' namespace fields, and every secret
it returns lives in the Gateway's namespace — while the secret-to-Gateway
event mapper gatewayReferencesSecret DOES honor the reference's namespace
(defaulting to the Gateway's) when matching secrets to Gateways. -/
theorem buildTLSInfo_ignores_ref_namespace :
    (∀ (f : Option String → Option String) (gw : Gateway) (cl : Cluster),
      buildTLSInfo (mapGatewayCertRefNs f gw) cl = buildTLSInfo gw cl) ∧
    (∀ (gw : Gateway) (cl : Cluster) (m : List (String × TLSConfigInfo)),
      buildTLSInfo gw cl = Except.ok m →
      ∀ p ∈ m, ∀ s, p.2.secret = some s → s.ns = gw.ns) ∧
    (∀ (gw : Gateway) (secret : Secret),
      gatewayReferencesSecret gw secret = true ↔
        ∃ l ∈ gw.listeners, ∃ t, l.tls = some t ∧
          ∃ ref ∈ t.certificateRefs, ref.name = secret.name ∧
            (match ref.ns with | some n => n | none => gw.ns) = secret.ns) :=
  ⟨buildTLSInfo_mapNs, buildTLSInfo_secret_ns, gatewayReferencesSecret_iff⟩

/-- C10 witness: a Gateway whose certificate reference names namespace
"other" still resolves the secret from the Gateway's namespace "default". -/
theorem buildTLSInfo_ignores_ref_namespace_witness :
    buildTLSInfo gwC10 clC10 = Except.ok mC10 ∧ secretC10.ns = gwC10.ns :=
  ⟨rfl,
    buildTLSInfo_ignores_ref_namespace.2.1 gwC10 clC10 mC10 rfl
      ("h.example.com", { externalId := "", secret := some secretC10 })
      (by simp [mC10]) secretC10 rfl⟩
